import Mathlib

/-!
Verification of the Gomoku DQN training scripts
(`train_rule_based_dqn.py` and `train_self_play_dqn.py`).

The two training loops are embedded as executable Lean functions over an
abstract environment/agent interface.  The `GomokuEnvironment` and
`DQNAgent` classes are not part of the repository snapshot under
verification (only the training scripts are), so their operations are
modelled from the spec as explicit state-passing functions, with the
stochastic parts (epsilon-greedy selection, replay sampling, the gradient
step's loss) abstracted as oracle parameters.  All claims about the
training loops are then proved for every choice of these oracles, or
refuted on concrete ones.

Fields whose names start with `g` are ghost instrumentation: observation
traces recording which calls the loop performed and with which arguments.
They are never read by the embedded program logic itself.
-/

namespace GomokuDQN

/-! ## String containment (Python's `needle in haystack`) -/

/-- Boolean test that `n` is a prefix of `l` (on character lists). -/
def listStarts : List Char → List Char → Bool
  | [], _ => true
  | _ :: _, [] => false
  | a :: as, b :: bs => a == b && listStarts as bs

/-- Boolean test that `n` occurs as a contiguous sublist of `l`. -/
def listHasSub (n : List Char) : List Char → Bool
  | [] => listStarts n []
  | b :: bs => listStarts n (b :: bs) || listHasSub n bs

/-- Python's substring test `n in h` on strings. -/
def strIn (n h : String) : Bool := listHasSub n.data h.data

/-! ## Numeric helpers used by the training scripts -/

/-- Python's `round(x, 1)` (round half to even at one decimal place),
modelled on exact rationals. -/
def pyRound1 (q : ℚ) : ℚ :=
  let x := q * 10
  let f := Int.floor x
  let r := x - f
  (if r < 1/2 then (f : ℚ)
   else if 1/2 < r then (f : ℚ) + 1
   else if f % 2 = 0 then (f : ℚ) else (f : ℚ) + 1) / 10

/-- Arithmetic mean of a list of rationals (`np.mean`). -/
def qmean (l : List ℚ) : ℚ := l.sum / l.length

/-- Python's slice `l[-k:]`: for `k = 0` this is the whole list (since
`-0 == 0`), for `k > 0` the last `min k (length l)` elements. -/
def sliceLastPy (l : List ℚ) (k : ℕ) : List ℚ :=
  if k = 0 then l else l.drop (l.length - k)

/-- The win-rate pair computed at the end of each episode:
`wins / total_games if total_games > 0 else 0` for each player. -/
def winRatePair (w1 w2 d : ℕ) : ℚ × ℚ :=
  let total := w1 + w2 + d
  if 0 < total then ((w1 : ℚ) / (total : ℚ), (w2 : ℚ) / (total : ℚ))
  else (0, 0)

/-- A win-rate pair is admissible: both components nonnegative and their
sum at most one. -/
def winPairOK (p : ℚ × ℚ) : Bool :=
  decide (0 ≤ p.1) && decide (0 ≤ p.2) && decide (p.1 + p.2 ≤ 1)

/-! ## Replay transitions and the agent (`dqn_agent.py` is not in the
source snapshot; the agent is modelled from the spec) -/

/-- Transition record stored in the replay buffer (spec §3): a tuple of
(state, action_index, reward, next_state, done).  State encodings are
abstracted as natural-number identifiers. -/
structure Transition where
  state : ℕ
  action : ℕ
  reward : ℚ
  nextState : ℕ
  done : Bool
deriving Repr, DecidableEq

/-- Modelled from the spec: the mutable learning state owned by one
`DQNAgent` instance — its replay buffer, epsilon, and counters standing
for the parts whose exact values are abstract (network parameter
versions, number of selection / update / target-sync calls). -/
structure AgentState where
  memory : List Transition
  epsilon : ℚ
  selectCalls : ℕ
  updateCalls : ℕ
  policyVersion : ℕ
  targetVersion : ℕ
  targetSyncCount : ℕ
deriving Repr, DecidableEq

/-- Modelled from the spec: the constructor arguments of `DQNAgent`
together with oracles abstracting its stochastic behaviour: which action
`select_action` samples (indexed by the number of previous selection
calls) and which scalar loss a successful `update_model` step returns
(indexed by the number of previous update steps). -/
structure AgentParams where
  boardSize : ℕ
  memorySize : ℕ
  batchSize : ℕ
  epsilonStart : ℚ
  epsilonEnd : ℚ
  epsilonDecay : ℚ
  updateTargetEvery : ℕ
  selectOracle : ℕ → ℕ → List ℕ → ℕ
  lossOracle : ℕ → ℚ

/-- Modelled from the spec: a freshly constructed agent — empty replay
buffer, epsilon at `epsilon_start`, all counters zero. -/
def agentInit (A : AgentParams) : AgentState :=
  { memory := [], epsilon := A.epsilonStart, selectCalls := 0, updateCalls := 0,
    policyVersion := 0, targetVersion := 0, targetSyncCount := 0 }

/-- Modelled from the spec: `select_action(state, valid_moves)` returns
an action index (here produced by the oracle) and, as a side effect,
decays epsilon multiplicatively with floor `epsilon_end`. -/
def selectAction (A : AgentParams) (a : AgentState) (st : ℕ) (vm : List ℕ) :
    ℕ × AgentState :=
  (A.selectOracle a.selectCalls st vm,
   { a with selectCalls := a.selectCalls + 1,
            epsilon := max A.epsilonEnd (a.epsilon * A.epsilonDecay) })

/-- Modelled from the spec: `action_index_to_coordinates` is the
deterministic bijection `(index // board_size, index % board_size)`. -/
def actionToCoord (A : AgentParams) (i : ℕ) : ℕ × ℕ :=
  (i / A.boardSize, i % A.boardSize)

/-- Modelled from the spec: `store_transition` appends to the owned
replay buffer, evicting the oldest records beyond `memory_size`
(ring-buffer semantics); no other side effect. -/
def storeTransition (A : AgentParams) (a : AgentState) (t : Transition) : AgentState :=
  let m := a.memory ++ [t]
  { a with memory := if A.memorySize < m.length then m.drop (m.length - A.memorySize) else m }

/-- Modelled from the spec: `update_model` returns `none` (and changes
nothing) when the replay buffer holds fewer than `batch_size` records;
otherwise it performs one optimizer step (policy parameters move to a new
version) and returns the scalar loss. -/
def updateModel (A : AgentParams) (a : AgentState) : AgentState × Option ℚ :=
  if a.memory.length < A.batchSize then (a, none)
  else ({ a with updateCalls := a.updateCalls + 1, policyVersion := a.policyVersion + 1 },
        some (A.lossOracle a.updateCalls))

/-- Modelled from the spec: `update_target_network` copies the policy
parameters into the target network; the sync counter records that the
copy happened. -/
def updateTargetNetwork (a : AgentState) : AgentState :=
  { a with targetVersion := a.policyVersion, targetSyncCount := a.targetSyncCount + 1 }

/-! ## The environment interface (`gomoku_env.py` is not in the source
snapshot; the training loops only use this interface) -/

/-- Modelled from the spec: the interface of `GomokuEnvironment` as used
by the training loops.  Environment states are abstract identifiers; the
state returned by `reset`/`step` doubles as the state encoding the loops
pass around.  `stepFn` returns (next state, reward, done, the optional
`info["info"]` message); it is an arbitrary deterministic function, so
every theorem quantified over `EnvParams` holds for every environment
behaviour, including invalid moves. -/
structure EnvParams where
  resetState : ℕ
  stepFn : ℕ → ℕ × ℕ → ℕ × ℚ × Bool × Option String
  curPlayer : ℕ → ℕ
  validMoves : ℕ → List ℕ
  ruleMove : ℕ → ℕ × ℕ

/-! ## Terminal tallying shared shape

Both scripts end an episode with the same `if done:` block that matches
the info message against "Player 1 wins" / "Player 2 wins" / "Draw" with
Python's substring test. -/

/-- Which branch of the terminal tally block fires for an info message:
1 for "Player 1 wins", 2 for "Player 2 wins", 3 for "Draw", 0 when the
message is absent or matches none. -/
def tallyKind (m : Option String) : ℕ :=
  match m with
  | none => 0
  | some msg =>
    if strIn "Player 1 wins" msg then 1
    else if strIn "Player 2 wins" msg then 2
    else if strIn "Draw" msg then 3
    else 0

/-! ## The rule-based training loop (`train_rule_based_dqn.py`) -/

/-- The state of one in-progress episode of `train_dqn_rule_based`,
including the metric accumulators that outlive episodes.  Faithful
detail: the script has a `step_count` variable that is initialized to 0
and never incremented, and its `state` variable is never reassigned after
`env.reset()`. -/
structure RBState where
  es : ℕ
  state : ℕ
  agent1 : AgentState
  done : Bool
  agent1Reward : ℚ
  stepCount : ℕ
  agent1Wins : ℕ
  ruleBasedWins : ℕ
  draws : ℕ
  agent1Losses : List ℚ
  gSelects : List (ℕ × ℕ)
  gStepCalls : ℕ
  gUpdateResults1 : List (Option ℚ)
  gAgentRewards : List ℚ
  gPenalty : Bool
deriving Repr, DecidableEq

/-- The `if done:` tally block of the rule-based script: count the win or
draw and apply the hardcoded `agent1_reward -= 1` penalty when the
rule-based player ("Player 2") won. -/
def rbTally (s : RBState) (m : Option String) : RBState :=
  if s.done then
    if tallyKind m = 1 then { s with agent1Wins := s.agent1Wins + 1 }
    else if tallyKind m = 2 then
      { s with ruleBasedWins := s.ruleBasedWins + 1,
               agent1Reward := s.agent1Reward - 1, gPenalty := true }
    else if tallyKind m = 3 then { s with draws := s.draws + 1 }
    else s
  else s

/-- One iteration of the rule-based script's `while not done` loop.  On
agent turns (`current_player == 1`) it selects, steps, stores the
transition, accumulates the reward and runs `update_model`; on the
opponent's turns it only steps.  Note the loop variable `state` is never
updated (faithful to the script). -/
def rbIter (E : EnvParams) (A : AgentParams) (s : RBState) : RBState :=
  if E.curPlayer s.es = 1 then
    let sel := selectAction A s.agent1 s.state (E.validMoves s.es)
    let st := E.stepFn s.es (actionToCoord A sel.1)
    let ag := storeTransition A sel.2
      { state := s.state, action := sel.1, reward := st.2.1,
        nextState := st.1, done := st.2.2.1 }
    let upd := updateModel A ag
    rbTally { s with
      es := st.1, agent1 := upd.1,
      agent1Reward := s.agent1Reward + st.2.1,
      agent1Losses := s.agent1Losses ++ upd.2.toList,
      done := st.2.2.1,
      gSelects := s.gSelects ++ [(s.state, s.es)],
      gStepCalls := s.gStepCalls + 1,
      gUpdateResults1 := s.gUpdateResults1 ++ [upd.2],
      gAgentRewards := s.gAgentRewards ++ [st.2.1] } st.2.2.2
  else
    let st := E.stepFn s.es (E.ruleMove s.es)
    rbTally { s with es := st.1, done := st.2.2.1,
                     gStepCalls := s.gStepCalls + 1 } st.2.2.2

/-- The `while not done` loop, run with explicit fuel. -/
def rbLoop (E : EnvParams) (A : AgentParams) : ℕ → RBState → RBState
  | 0, s => s
  | Nat.succ k, s => if s.done then s else rbLoop E A k (rbIter E A s)

/-- The training-level state of `train_dqn_rule_based`: the agent and all
metric arrays, plus ghost traces. -/
structure RBTrainState where
  agent1 : AgentState
  agent1Wins : ℕ
  ruleBasedWins : ℕ
  draws : ℕ
  winRates : List (ℚ × ℚ)
  agent1Losses : List ℚ
  agent1RewardsList : List ℚ
  agent1AvgLosses : List ℚ
  gTargetUpdates1 : List ℕ
  gSelects : List (ℕ × ℕ)
  gStepCalls : ℕ
  gUpdateResults1 : List (Option ℚ)
deriving Repr, DecidableEq

/-- Episode initialization: `state = env.reset()`, `done = False`,
`agent1_reward = 0`, `step_count = 0`; the agent, win counters, loss list
and ghost traces persist across episodes. -/
def rbEpisodeInit (E : EnvParams) (t : RBTrainState) : RBState :=
  { es := E.resetState, state := E.resetState, agent1 := t.agent1, done := false,
    agent1Reward := 0, stepCount := 0,
    agent1Wins := t.agent1Wins, ruleBasedWins := t.ruleBasedWins, draws := t.draws,
    agent1Losses := t.agent1Losses,
    gSelects := t.gSelects, gStepCalls := t.gStepCalls,
    gUpdateResults1 := t.gUpdateResults1, gAgentRewards := [], gPenalty := false }

/-- One episode of `train_dqn_rule_based` (episode number `e`): run the
inner loop, update the target network when `episode % update_target_every
== 0`, then append the episode metrics — the rounded episode reward, the
average `np.mean(agent1_losses[-step_count:])` (with `step_count` still
0), and the win-rate pair. -/
def rbEpisode (E : EnvParams) (A : AgentParams) (fuel e : ℕ) (t : RBTrainState) :
    RBTrainState :=
  let s := rbLoop E A fuel (rbEpisodeInit E t)
  let sync := e % A.updateTargetEvery == 0
  { agent1 := if sync then updateTargetNetwork s.agent1 else s.agent1,
    agent1Wins := s.agent1Wins, ruleBasedWins := s.ruleBasedWins, draws := s.draws,
    winRates := t.winRates ++ [winRatePair s.agent1Wins s.ruleBasedWins s.draws],
    agent1Losses := s.agent1Losses,
    agent1RewardsList := t.agent1RewardsList ++ [pyRound1 s.agent1Reward],
    agent1AvgLosses := t.agent1AvgLosses ++
      [if s.agent1Losses = [] then 0 else qmean (sliceLastPy s.agent1Losses s.stepCount)],
    gTargetUpdates1 := if sync then t.gTargetUpdates1 ++ [e] else t.gTargetUpdates1,
    gSelects := s.gSelects, gStepCalls := s.gStepCalls,
    gUpdateResults1 := s.gUpdateResults1 }

/-- Fresh training state: a newly constructed agent and empty metrics. -/
def rbTrainInit (A : AgentParams) : RBTrainState :=
  { agent1 := agentInit A, agent1Wins := 0, ruleBasedWins := 0, draws := 0,
    winRates := [], agent1Losses := [], agent1RewardsList := [], agent1AvgLosses := [],
    gTargetUpdates1 := [], gSelects := [], gStepCalls := 0, gUpdateResults1 := [] }

/-- The whole rule-based training run: episodes 1 .. numEpisodes. -/
def rbTrain (E : EnvParams) (A : AgentParams) (fuel numEpisodes : ℕ) : RBTrainState :=
  (List.range' 1 numEpisodes).foldl (fun t e => rbEpisode E A fuel e t) (rbTrainInit A)

/-- The run directory and metric file paths the rule-based script saves
to: `rule_based_dqn/<rewards_type>/{win_rates,agent1_rewards,agent1_losses}.npy`. -/
def rbRunFolder (rt : String) : String := "rule_based_dqn/" ++ (rt ++ "/")

/-- Metric artifact paths written by `train_rule_based_dqn.py`. -/
def rbMetricPaths (rt : String) : List String :=
  [rbRunFolder rt ++ "win_rates.npy",
   rbRunFolder rt ++ "agent1_rewards.npy",
   rbRunFolder rt ++ "agent1_losses.npy"]

/-- Model checkpoint path written by `train_rule_based_dqn.py`. -/
def rbModelPath (rt msp : String) : String := rbRunFolder rt ++ msp

/-! ## The self-play training loop (`train_self_play_dqn.py`)

The active loop (the retry-until-valid variant exists only inside a
commented-out block of the script and is therefore not embedded). -/

/-- The state of one in-progress episode of `train_dqn_self_play`.
Unlike the rule-based script, this loop does reassign `state =
next_state` and does increment `step_count`. -/
structure SPState where
  es : ℕ
  state : ℕ
  agent1 : AgentState
  agent2 : AgentState
  done : Bool
  agent1Reward : ℚ
  agent2Reward : ℚ
  stepCount : ℕ
  agent1Wins : ℕ
  agent2Wins : ℕ
  draws : ℕ
  agent1Losses : List ℚ
  agent2Losses : List ℚ
  gSelects : List (ℕ × ℕ)
  gStepCalls : ℕ
  gUpdateResults1 : List (Option ℚ)
  gUpdateResults2 : List (Option ℚ)
  gAgentRewards1 : List ℚ
  gAgentRewards2 : List ℚ
  gPenalty1 : Bool
  gPenalty2 : Bool
deriving Repr, DecidableEq

/-- The `if done:` tally block of the self-play script: count the win or
draw, and apply the hardcoded `-= 1` penalty to the losing agent's
episode reward. -/
def spTally (s : SPState) (m : Option String) : SPState :=
  if s.done then
    if tallyKind m = 1 then
      { s with agent1Wins := s.agent1Wins + 1,
               agent2Reward := s.agent2Reward - 1, gPenalty2 := true }
    else if tallyKind m = 2 then
      { s with agent2Wins := s.agent2Wins + 1,
               agent1Reward := s.agent1Reward - 1, gPenalty1 := true }
    else if tallyKind m = 3 then { s with draws := s.draws + 1 }
    else s
  else s

/-- One iteration of the self-play script's `while not done` loop: the
agent whose turn it is selects an action from the valid moves, the
environment steps once, the acting agent stores the transition and runs
`update_model`, the loop variable `state` becomes `next_state` and
`step_count` is incremented; finally the terminal tally runs when
`done`. -/
def spIter (E : EnvParams) (A1 A2 : AgentParams) (s : SPState) : SPState :=
  if E.curPlayer s.es = 1 then
    let sel := selectAction A1 s.agent1 s.state (E.validMoves s.es)
    let st := E.stepFn s.es (actionToCoord A1 sel.1)
    let ag := storeTransition A1 sel.2
      { state := s.state, action := sel.1, reward := st.2.1,
        nextState := st.1, done := st.2.2.1 }
    let upd := updateModel A1 ag
    spTally { s with
      es := st.1, state := st.1, agent1 := upd.1,
      agent1Reward := s.agent1Reward + st.2.1,
      agent1Losses := s.agent1Losses ++ upd.2.toList,
      stepCount := s.stepCount + 1,
      done := st.2.2.1,
      gSelects := s.gSelects ++ [(s.state, s.es)],
      gStepCalls := s.gStepCalls + 1,
      gUpdateResults1 := s.gUpdateResults1 ++ [upd.2],
      gAgentRewards1 := s.gAgentRewards1 ++ [st.2.1] } st.2.2.2
  else
    let sel := selectAction A2 s.agent2 s.state (E.validMoves s.es)
    let st := E.stepFn s.es (actionToCoord A2 sel.1)
    let ag := storeTransition A2 sel.2
      { state := s.state, action := sel.1, reward := st.2.1,
        nextState := st.1, done := st.2.2.1 }
    let upd := updateModel A2 ag
    spTally { s with
      es := st.1, state := st.1, agent2 := upd.1,
      agent2Reward := s.agent2Reward + st.2.1,
      agent2Losses := s.agent2Losses ++ upd.2.toList,
      stepCount := s.stepCount + 1,
      done := st.2.2.1,
      gSelects := s.gSelects ++ [(s.state, s.es)],
      gStepCalls := s.gStepCalls + 1,
      gUpdateResults2 := s.gUpdateResults2 ++ [upd.2],
      gAgentRewards2 := s.gAgentRewards2 ++ [st.2.1] } st.2.2.2

/-- The self-play `while not done` loop, run with explicit fuel. -/
def spLoop (E : EnvParams) (A1 A2 : AgentParams) : ℕ → SPState → SPState
  | 0, s => s
  | Nat.succ k, s => if s.done then s else spLoop E A1 A2 k (spIter E A1 A2 s)

/-- The training-level state of `train_dqn_self_play`: both agents and
all metric arrays, plus ghost traces. -/
structure SPTrainState where
  agent1 : AgentState
  agent2 : AgentState
  agent1Wins : ℕ
  agent2Wins : ℕ
  draws : ℕ
  winRates : List (ℚ × ℚ)
  agent1Losses : List ℚ
  agent2Losses : List ℚ
  agent1RewardsList : List ℚ
  agent2RewardsList : List ℚ
  agent1AvgLosses : List ℚ
  agent2AvgLosses : List ℚ
  gTargetUpdates1 : List ℕ
  gTargetUpdates2 : List ℕ
  gSelects : List (ℕ × ℕ)
  gStepCalls : ℕ
  gUpdateResults1 : List (Option ℚ)
  gUpdateResults2 : List (Option ℚ)
deriving Repr, DecidableEq

/-- Episode initialization for the self-play loop. -/
def spEpisodeInit (E : EnvParams) (t : SPTrainState) : SPState :=
  { es := E.resetState, state := E.resetState,
    agent1 := t.agent1, agent2 := t.agent2, done := false,
    agent1Reward := 0, agent2Reward := 0, stepCount := 0,
    agent1Wins := t.agent1Wins, agent2Wins := t.agent2Wins, draws := t.draws,
    agent1Losses := t.agent1Losses, agent2Losses := t.agent2Losses,
    gSelects := t.gSelects, gStepCalls := t.gStepCalls,
    gUpdateResults1 := t.gUpdateResults1, gUpdateResults2 := t.gUpdateResults2,
    gAgentRewards1 := [], gAgentRewards2 := [],
    gPenalty1 := false, gPenalty2 := false }

/-- One episode of `train_dqn_self_play` (episode number `e`): run the
inner loop; when `episode % agent1.update_target_every == 0` both agents
sync their target networks; then append the episode metrics (the raw
episode rewards, the averages `np.mean(losses[-step_count:])`, and the
win-rate pair). -/
def spEpisode (E : EnvParams) (A1 A2 : AgentParams) (fuel e : ℕ)
    (t : SPTrainState) : SPTrainState :=
  let s := spLoop E A1 A2 fuel (spEpisodeInit E t)
  let sync := e % A1.updateTargetEvery == 0
  { agent1 := if sync then updateTargetNetwork s.agent1 else s.agent1,
    agent2 := if sync then updateTargetNetwork s.agent2 else s.agent2,
    agent1Wins := s.agent1Wins, agent2Wins := s.agent2Wins, draws := s.draws,
    winRates := t.winRates ++ [winRatePair s.agent1Wins s.agent2Wins s.draws],
    agent1Losses := s.agent1Losses, agent2Losses := s.agent2Losses,
    agent1RewardsList := t.agent1RewardsList ++ [s.agent1Reward],
    agent2RewardsList := t.agent2RewardsList ++ [s.agent2Reward],
    agent1AvgLosses := t.agent1AvgLosses ++
      [if s.agent1Losses = [] then 0 else qmean (sliceLastPy s.agent1Losses s.stepCount)],
    agent2AvgLosses := t.agent2AvgLosses ++
      [if s.agent2Losses = [] then 0 else qmean (sliceLastPy s.agent2Losses s.stepCount)],
    gTargetUpdates1 := if sync then t.gTargetUpdates1 ++ [e] else t.gTargetUpdates1,
    gTargetUpdates2 := if sync then t.gTargetUpdates2 ++ [e] else t.gTargetUpdates2,
    gSelects := s.gSelects, gStepCalls := s.gStepCalls,
    gUpdateResults1 := s.gUpdateResults1, gUpdateResults2 := s.gUpdateResults2 }

/-- Fresh self-play training state: two independently constructed agents
and empty metrics. -/
def spTrainInit (A1 A2 : AgentParams) : SPTrainState :=
  { agent1 := agentInit A1, agent2 := agentInit A2,
    agent1Wins := 0, agent2Wins := 0, draws := 0,
    winRates := [], agent1Losses := [], agent2Losses := [],
    agent1RewardsList := [], agent2RewardsList := [],
    agent1AvgLosses := [], agent2AvgLosses := [],
    gTargetUpdates1 := [], gTargetUpdates2 := [],
    gSelects := [], gStepCalls := 0,
    gUpdateResults1 := [], gUpdateResults2 := [] }

/-- The whole self-play training run: episodes 1 .. numEpisodes. -/
def spTrain (E : EnvParams) (A1 A2 : AgentParams) (fuel numEpisodes : ℕ) :
    SPTrainState :=
  (List.range' 1 numEpisodes).foldl (fun t e => spEpisode E A1 A2 fuel e t)
    (spTrainInit A1 A2)

/-- Metric artifact paths written by `train_self_play_dqn.py`: fixed
filenames in the working directory — the saving code does not use the
reward-configuration name at all. -/
def spMetricPaths : List String :=
  ["win_rates.npy", "agent1_rewards.npy", "agent2_rewards.npy",
   "agent1_losses.npy", "agent2_losses.npy"]

/-- Model checkpoint paths written by `train_self_play_dqn.py`. -/
def spModelPaths (msp : String) : List String :=
  ["agent1_" ++ msp, "agent2_" ++ msp]

/-! ## Concrete oracle instances used to evaluate the loops

The loop-level theorems below are quantified over every environment and
every agent oracle; the following small instances pin down particular
runs, to evaluate the loops on failing inputs and witnesses.  Each
`EnvParams` instance is a scripted trace of environment answers; where a
claim depends on `GomokuEnvironment` behaviour that is not in the source
snapshot, the trace follows the spec's contract (§4.1). -/

/-- An oracle agent that always nominates action index 0 and whose
batch size is large enough that `update_model` always returns `none`. -/
def stubAgent : AgentParams :=
  { boardSize := 3, memorySize := 100, batchSize := 512,
    epsilonStart := 1, epsilonEnd := 0, epsilonDecay := 1/2,
    updateTargetEvery := 10,
    selectOracle := fun _ _ _ => 0, lossOracle := fun _ => 0 }

/-- Modelled from the spec: a three-step environment trace — player 1
moves (state 0 to 1), the opposing player replies (state 1 to 2), player
1 moves again and wins (state 2 to 3).  Between player 1's two turns the
environment state changes, which is what claim C1 is about. -/
def envStale : EnvParams :=
  { resetState := 0,
    stepFn := fun es _ =>
      if es = 0 then (1, 0, false, none)
      else if es = 1 then (2, 0, false, none)
      else (3, 0, true, some "Player 1 wins"),
    curPlayer := fun es => if es = 1 then 2 else 1,
    validMoves := fun _ => [0],
    ruleMove := fun _ => (0, 0) }

/-- Modelled from the spec: an environment trace in which player 1's
first move immediately wins, so every episode consists of exactly one
agent move. -/
def envOneMove : EnvParams :=
  { resetState := 0,
    stepFn := fun _ _ => (1, 0, true, some "Player 1 wins"),
    curPlayer := fun _ => 1,
    validMoves := fun _ => [0],
    ruleMove := fun _ => (0, 0) }

/-- An agent for the loss-metric run: batch size 1 so that every stored
transition enables an update; the first update returns loss 0, every
later one loss 2. -/
def lossAgent : AgentParams :=
  { stubAgent with batchSize := 1, lossOracle := fun k => if k = 0 then 0 else 2 }

/-- Modelled from the spec: an environment trace in which player 1's
move earns step reward 5 (state 0 to 1) and the rule-based player then
wins (state 1 to 2, "Player 2 wins"). -/
def envOppWins : EnvParams :=
  { resetState := 0,
    stepFn := fun es _ =>
      if es = 0 then (1, 5, false, none)
      else (2, 0, true, some "Player 2 wins"),
    curPlayer := fun es => if es = 0 then 1 else 2,
    validMoves := fun _ => [0],
    ruleMove := fun _ => (0, 0) }

/-- Modelled from the spec: a self-play trace with an invalid move.
Player 1's first move occupies cell (0,0) (state 0 to 1); player 2 then
targets the occupied cell (0,0), which per the spec's reference
behaviour leaves the board unchanged, returns the configured invalid-move
penalty, terminates the episode, and reports "Invalid move". -/
def envInvalidSP : EnvParams :=
  { resetState := 0,
    stepFn := fun es rc =>
      if es = 0 then (1, 0, false, none)
      else if rc = (0, 0) then (1, -1, true, some "Invalid move")
      else (2, 0, false, none),
    curPlayer := fun es => if es = 1 then 2 else 1,
    validMoves := fun es => if es = 0 then [0, 1] else [1],
    ruleMove := fun _ => (0, 0) }

/-- Modelled from the spec: a rule-based-loop trace with an invalid
move.  Player 1 plays (0,0) (state 0 to 1), the rule-based player
replies elsewhere (state 1 to 2), then player 1 targets the occupied
(0,0) again: per the spec's reference behaviour the episode terminates
with the invalid-move penalty and "Invalid move". -/
def envInvalidRB : EnvParams :=
  { resetState := 0,
    stepFn := fun es rc =>
      if es = 0 then (1, 0, false, none)
      else if es = 1 then (2, 0, false, none)
      else if rc = (0, 0) then (2, -1, true, some "Invalid move")
      else (3, 0, false, none),
    curPlayer := fun es => if es = 1 then 2 else 1,
    validMoves := fun _ => [1],
    ruleMove := fun _ => (1, 1) }

/-! ## Helper lemmas: loop unfolding and literal tally kinds -/

theorem rbLoop_zero (E : EnvParams) (A : AgentParams) (s : RBState) :
    rbLoop E A 0 s = s := rfl

theorem rbLoop_succ (E : EnvParams) (A : AgentParams) (k : ℕ) (s : RBState) :
    rbLoop E A (k + 1) s = if s.done then s else rbLoop E A k (rbIter E A s) := rfl

theorem spLoop_zero (E : EnvParams) (A1 A2 : AgentParams) (s : SPState) :
    spLoop E A1 A2 0 s = s := rfl

theorem spLoop_succ (E : EnvParams) (A1 A2 : AgentParams) (k : ℕ) (s : SPState) :
    spLoop E A1 A2 (k + 1) s =
      if s.done then s else spLoop E A1 A2 k (spIter E A1 A2 s) := rfl

theorem tallyKind_p1win : tallyKind (some "Player 1 wins") = 1 := by decide

theorem tallyKind_p2win : tallyKind (some "Player 2 wins") = 2 := by decide

theorem tallyKind_invalid : tallyKind (some "Invalid move") = 0 := by decide

theorem tallyKind_noInfo : tallyKind none = 0 := by decide

/-! ## Helper lemmas: fields untouched by the agent operations -/

theorem selectAction_selectCalls (A : AgentParams) (a : AgentState) (st : ℕ) (vm : List ℕ) :
    (selectAction A a st vm).2.selectCalls = a.selectCalls + 1 := rfl

theorem selectAction_targetSyncCount (A : AgentParams) (a : AgentState) (st : ℕ) (vm : List ℕ) :
    (selectAction A a st vm).2.targetSyncCount = a.targetSyncCount := rfl

theorem storeTransition_selectCalls (A : AgentParams) (a : AgentState) (t : Transition) :
    (storeTransition A a t).selectCalls = a.selectCalls := rfl

theorem storeTransition_targetSyncCount (A : AgentParams) (a : AgentState) (t : Transition) :
    (storeTransition A a t).targetSyncCount = a.targetSyncCount := rfl

theorem updateModel_selectCalls (A : AgentParams) (a : AgentState) :
    (updateModel A a).1.selectCalls = a.selectCalls := by
  unfold updateModel; split <;> rfl

theorem updateModel_targetSyncCount (A : AgentParams) (a : AgentState) :
    (updateModel A a).1.targetSyncCount = a.targetSyncCount := by
  unfold updateModel; split <;> rfl

theorem updateTargetNetwork_targetSyncCount (a : AgentState) :
    (updateTargetNetwork a).targetSyncCount = a.targetSyncCount + 1 := rfl

/-! ## Helper lemmas: the rule-based tally block -/

theorem rbTally_agent1 (s : RBState) (m : Option String) :
    (rbTally s m).agent1 = s.agent1 := by
  unfold rbTally; split_ifs <;> rfl

theorem rbTally_agent1Losses (s : RBState) (m : Option String) :
    (rbTally s m).agent1Losses = s.agent1Losses := by
  unfold rbTally; split_ifs <;> rfl

theorem rbTally_done (s : RBState) (m : Option String) :
    (rbTally s m).done = s.done := by
  unfold rbTally; split_ifs <;> rfl

theorem rbTally_es (s : RBState) (m : Option String) :
    (rbTally s m).es = s.es := by
  unfold rbTally; split_ifs <;> rfl

theorem rbTally_state (s : RBState) (m : Option String) :
    (rbTally s m).state = s.state := by
  unfold rbTally; split_ifs <;> rfl

theorem rbTally_stepCount (s : RBState) (m : Option String) :
    (rbTally s m).stepCount = s.stepCount := by
  unfold rbTally; split_ifs <;> rfl

theorem rbTally_gSelects (s : RBState) (m : Option String) :
    (rbTally s m).gSelects = s.gSelects := by
  unfold rbTally; split_ifs <;> rfl

theorem rbTally_gStepCalls (s : RBState) (m : Option String) :
    (rbTally s m).gStepCalls = s.gStepCalls := by
  unfold rbTally; split_ifs <;> rfl

theorem rbTally_gUpdateResults1 (s : RBState) (m : Option String) :
    (rbTally s m).gUpdateResults1 = s.gUpdateResults1 := by
  unfold rbTally; split_ifs <;> rfl

theorem rbTally_gAgentRewards (s : RBState) (m : Option String) :
    (rbTally s m).gAgentRewards = s.gAgentRewards := by
  unfold rbTally; split_ifs <;> rfl

theorem rbTally_agent1Reward (s : RBState) (m : Option String) :
    (rbTally s m).agent1Reward =
      s.agent1Reward - (if s.done = true ∧ tallyKind m = 2 then 1 else 0) := by
  unfold rbTally; split_ifs with h1 h2 h3 h4 <;> simp_all

theorem rbTally_gPenalty (s : RBState) (m : Option String) :
    (rbTally s m).gPenalty =
      if s.done = true ∧ tallyKind m = 2 then true else s.gPenalty := by
  unfold rbTally; split_ifs with h1 h2 h3 h4 <;> simp_all

/-! ## Helper lemmas: the self-play tally block -/

theorem spTally_agent1 (s : SPState) (m : Option String) :
    (spTally s m).agent1 = s.agent1 := by
  unfold spTally; split_ifs <;> rfl

theorem spTally_agent2 (s : SPState) (m : Option String) :
    (spTally s m).agent2 = s.agent2 := by
  unfold spTally; split_ifs <;> rfl

theorem spTally_agent1Losses (s : SPState) (m : Option String) :
    (spTally s m).agent1Losses = s.agent1Losses := by
  unfold spTally; split_ifs <;> rfl

theorem spTally_agent2Losses (s : SPState) (m : Option String) :
    (spTally s m).agent2Losses = s.agent2Losses := by
  unfold spTally; split_ifs <;> rfl

theorem spTally_done (s : SPState) (m : Option String) :
    (spTally s m).done = s.done := by
  unfold spTally; split_ifs <;> rfl

theorem spTally_es (s : SPState) (m : Option String) :
    (spTally s m).es = s.es := by
  unfold spTally; split_ifs <;> rfl

theorem spTally_state (s : SPState) (m : Option String) :
    (spTally s m).state = s.state := by
  unfold spTally; split_ifs <;> rfl

theorem spTally_stepCount (s : SPState) (m : Option String) :
    (spTally s m).stepCount = s.stepCount := by
  unfold spTally; split_ifs <;> rfl

theorem spTally_gSelects (s : SPState) (m : Option String) :
    (spTally s m).gSelects = s.gSelects := by
  unfold spTally; split_ifs <;> rfl

theorem spTally_gStepCalls (s : SPState) (m : Option String) :
    (spTally s m).gStepCalls = s.gStepCalls := by
  unfold spTally; split_ifs <;> rfl

theorem spTally_gUpdateResults1 (s : SPState) (m : Option String) :
    (spTally s m).gUpdateResults1 = s.gUpdateResults1 := by
  unfold spTally; split_ifs <;> rfl

theorem spTally_gUpdateResults2 (s : SPState) (m : Option String) :
    (spTally s m).gUpdateResults2 = s.gUpdateResults2 := by
  unfold spTally; split_ifs <;> rfl

theorem spTally_gAgentRewards1 (s : SPState) (m : Option String) :
    (spTally s m).gAgentRewards1 = s.gAgentRewards1 := by
  unfold spTally; split_ifs <;> rfl

theorem spTally_gAgentRewards2 (s : SPState) (m : Option String) :
    (spTally s m).gAgentRewards2 = s.gAgentRewards2 := by
  unfold spTally; split_ifs <;> rfl

theorem spTally_agent1Reward (s : SPState) (m : Option String) :
    (spTally s m).agent1Reward =
      s.agent1Reward - (if s.done = true ∧ tallyKind m = 2 then 1 else 0) := by
  unfold spTally; split_ifs with h1 h2 h3 h4 <;> simp_all

theorem spTally_agent2Reward (s : SPState) (m : Option String) :
    (spTally s m).agent2Reward =
      s.agent2Reward - (if s.done = true ∧ tallyKind m = 1 then 1 else 0) := by
  unfold spTally; split_ifs with h1 h2 h3 h4 <;> simp_all

theorem spTally_gPenalty1 (s : SPState) (m : Option String) :
    (spTally s m).gPenalty1 =
      if s.done = true ∧ tallyKind m = 2 then true else s.gPenalty1 := by
  unfold spTally; split_ifs with h1 h2 h3 h4 <;> simp_all

theorem spTally_gPenalty2 (s : SPState) (m : Option String) :
    (spTally s m).gPenalty2 =
      if s.done = true ∧ tallyKind m = 1 then true else s.gPenalty2 := by
  unfold spTally; split_ifs with h1 h2 h3 h4 <;> simp_all

/-! ## Helper lemmas: one loop iteration -/

theorem filterMap_id_single (o : Option ℚ) : List.filterMap id [o] = o.toList := by
  cases o <;> rfl

theorem rbIter_targetSyncCount (E : EnvParams) (A : AgentParams) (s : RBState) :
    (rbIter E A s).agent1.targetSyncCount = s.agent1.targetSyncCount := by
  unfold rbIter
  split <;>
    simp [rbTally_agent1, updateModel_targetSyncCount, storeTransition_targetSyncCount,
      selectAction_targetSyncCount]

theorem rbIter_gStepCalls (E : EnvParams) (A : AgentParams) (s : RBState) :
    (rbIter E A s).gStepCalls = s.gStepCalls + 1 := by
  unfold rbIter
  split <;> simp [rbTally_gStepCalls]

theorem rbIter_selectCalls (E : EnvParams) (A : AgentParams) (s : RBState) :
    (rbIter E A s).agent1.selectCalls =
      s.agent1.selectCalls + (if E.curPlayer s.es = 1 then 1 else 0) := by
  unfold rbIter
  split <;>
    simp_all [rbTally_agent1, updateModel_selectCalls, storeTransition_selectCalls,
      selectAction_selectCalls]

theorem rbIter_lossTrace (E : EnvParams) (A : AgentParams) (s : RBState)
    (h : s.agent1Losses = s.gUpdateResults1.filterMap id) :
    (rbIter E A s).agent1Losses = ((rbIter E A s).gUpdateResults1).filterMap id := by
  unfold rbIter
  split <;>
    simp [rbTally_agent1Losses, rbTally_gUpdateResults1, List.filterMap_append,
      filterMap_id_single, h]

theorem spIter_targetSyncCount1 (E : EnvParams) (A1 A2 : AgentParams) (s : SPState) :
    (spIter E A1 A2 s).agent1.targetSyncCount = s.agent1.targetSyncCount := by
  unfold spIter
  split <;>
    simp [spTally_agent1, updateModel_targetSyncCount, storeTransition_targetSyncCount,
      selectAction_targetSyncCount]

theorem spIter_targetSyncCount2 (E : EnvParams) (A1 A2 : AgentParams) (s : SPState) :
    (spIter E A1 A2 s).agent2.targetSyncCount = s.agent2.targetSyncCount := by
  unfold spIter
  split <;>
    simp [spTally_agent2, updateModel_targetSyncCount, storeTransition_targetSyncCount,
      selectAction_targetSyncCount]

theorem spIter_gStepCalls (E : EnvParams) (A1 A2 : AgentParams) (s : SPState) :
    (spIter E A1 A2 s).gStepCalls = s.gStepCalls + 1 := by
  unfold spIter
  split <;> simp [spTally_gStepCalls]

theorem spIter_selectCalls (E : EnvParams) (A1 A2 : AgentParams) (s : SPState) :
    (spIter E A1 A2 s).agent1.selectCalls + (spIter E A1 A2 s).agent2.selectCalls =
      s.agent1.selectCalls + s.agent2.selectCalls + 1 := by
  unfold spIter
  split <;>
    simp [spTally_agent1, spTally_agent2, updateModel_selectCalls,
      storeTransition_selectCalls, selectAction_selectCalls] <;> omega

theorem spIter_agent2_frame (E : EnvParams) (A1 A2 : AgentParams) (s : SPState)
    (h : E.curPlayer s.es = 1) : (spIter E A1 A2 s).agent2 = s.agent2 := by
  unfold spIter
  rw [if_pos h]
  simp [spTally_agent2]

theorem spIter_agent1_frame (E : EnvParams) (A1 A2 : AgentParams) (s : SPState)
    (h : ¬ E.curPlayer s.es = 1) : (spIter E A1 A2 s).agent1 = s.agent1 := by
  unfold spIter
  rw [if_neg h]
  simp [spTally_agent1]

theorem spIter_stateTrace (E : EnvParams) (A1 A2 : AgentParams) (s : SPState)
    (h1 : s.state = s.es)
    (h2 : s.gSelects.all (fun p => p.1 == p.2) = true) :
    (spIter E A1 A2 s).state = (spIter E A1 A2 s).es ∧
      ((spIter E A1 A2 s).gSelects).all (fun p => p.1 == p.2) = true := by
  unfold spIter
  split <;>
    simp [spTally_state, spTally_es, spTally_gSelects, List.all_append, h1, h2]

theorem spIter_lossTrace1 (E : EnvParams) (A1 A2 : AgentParams) (s : SPState)
    (h : s.agent1Losses = s.gUpdateResults1.filterMap id) :
    (spIter E A1 A2 s).agent1Losses = ((spIter E A1 A2 s).gUpdateResults1).filterMap id := by
  unfold spIter
  split <;>
    simp [spTally_agent1Losses, spTally_gUpdateResults1, List.filterMap_append,
      filterMap_id_single, h]

theorem spIter_lossTrace2 (E : EnvParams) (A1 A2 : AgentParams) (s : SPState)
    (h : s.agent2Losses = s.gUpdateResults2.filterMap id) :
    (spIter E A1 A2 s).agent2Losses = ((spIter E A1 A2 s).gUpdateResults2).filterMap id := by
  unfold spIter
  split <;>
    simp [spTally_agent2Losses, spTally_gUpdateResults2, List.filterMap_append,
      filterMap_id_single, h]

/-! ## Helper lemmas: reward accounting across one iteration -/

theorem rbIter_rewardTrace (E : EnvParams) (A : AgentParams) (s : RBState)
    (hd : s.done = false)
    (h : s.agent1Reward = s.gAgentRewards.sum - (if s.gPenalty = true then 1 else 0))
    (hp : s.gPenalty = true → s.done = true) :
    ((rbIter E A s).agent1Reward =
      ((rbIter E A s).gAgentRewards).sum -
        (if (rbIter E A s).gPenalty = true then 1 else 0)) ∧
    ((rbIter E A s).gPenalty = true → (rbIter E A s).done = true) := by
  have hpf : s.gPenalty = false := by
    cases hsp : s.gPenalty
    · rfl
    · exact absurd (hp hsp) (by simp [hd])
  rw [hpf] at h
  unfold rbIter
  split <;>
    (constructor <;>
      simp only [rbTally_agent1Reward, rbTally_gAgentRewards, rbTally_gPenalty,
        rbTally_done] <;>
      split_ifs <;>
      simp_all [List.sum_append])

theorem spIter_rewardTrace1 (E : EnvParams) (A1 A2 : AgentParams) (s : SPState)
    (hd : s.done = false)
    (h : s.agent1Reward = s.gAgentRewards1.sum - (if s.gPenalty1 = true then 1 else 0))
    (hp : s.gPenalty1 = true → s.done = true) :
    ((spIter E A1 A2 s).agent1Reward =
      ((spIter E A1 A2 s).gAgentRewards1).sum -
        (if (spIter E A1 A2 s).gPenalty1 = true then 1 else 0)) ∧
    ((spIter E A1 A2 s).gPenalty1 = true → (spIter E A1 A2 s).done = true) := by
  have hpf : s.gPenalty1 = false := by
    cases hsp : s.gPenalty1
    · rfl
    · exact absurd (hp hsp) (by simp [hd])
  rw [hpf] at h
  unfold spIter
  split <;>
    (constructor <;>
      simp only [spTally_agent1Reward, spTally_gAgentRewards1, spTally_gPenalty1,
        spTally_done] <;>
      split_ifs <;>
      simp_all [List.sum_append])

theorem spIter_rewardTrace2 (E : EnvParams) (A1 A2 : AgentParams) (s : SPState)
    (hd : s.done = false)
    (h : s.agent2Reward = s.gAgentRewards2.sum - (if s.gPenalty2 = true then 1 else 0))
    (hp : s.gPenalty2 = true → s.done = true) :
    ((spIter E A1 A2 s).agent2Reward =
      ((spIter E A1 A2 s).gAgentRewards2).sum -
        (if (spIter E A1 A2 s).gPenalty2 = true then 1 else 0)) ∧
    ((spIter E A1 A2 s).gPenalty2 = true → (spIter E A1 A2 s).done = true) := by
  have hpf : s.gPenalty2 = false := by
    cases hsp : s.gPenalty2
    · rfl
    · exact absurd (hp hsp) (by simp [hd])
  rw [hpf] at h
  unfold spIter
  split <;>
    (constructor <;>
      simp only [spTally_agent2Reward, spTally_gAgentRewards2, spTally_gPenalty2,
        spTally_done] <;>
      split_ifs <;>
      simp_all [List.sum_append])

/-! ## Helper lemma: the rule-based opponent's turn (frame) -/

theorem rbIter_oppTurn (E : EnvParams) (A : AgentParams) (s : RBState)
    (h : ¬ E.curPlayer s.es = 1) :
    (rbIter E A s).agent1 = s.agent1 ∧
    (rbIter E A s).agent1Losses = s.agent1Losses ∧
    (rbIter E A s).gUpdateResults1 = s.gUpdateResults1 ∧
    (rbIter E A s).agent1Reward = s.agent1Reward -
      (if (E.stepFn s.es (E.ruleMove s.es)).2.2.1 = true ∧
          tallyKind (E.stepFn s.es (E.ruleMove s.es)).2.2.2 = 2 then 1 else 0) := by
  unfold rbIter
  rw [if_neg h]
  refine ⟨?_, ?_, ?_, ?_⟩ <;>
    simp [rbTally_agent1, rbTally_agent1Losses, rbTally_gUpdateResults1,
      rbTally_agent1Reward]

/-! ## Helper lemmas: invariants through the episode loops and the
episode fold -/

theorem rbLoop_inv (E : EnvParams) (A : AgentParams) (P : RBState → Prop)
    (h : ∀ s, s.done = false → P s → P (rbIter E A s)) :
    ∀ (fuel : ℕ) (s : RBState), P s → P (rbLoop E A fuel s) := by
  intro fuel
  induction fuel with
  | zero => intro s hs; exact hs
  | succ k ih =>
      intro s hs
      rw [rbLoop_succ]
      split
      · exact hs
      · next hd => exact ih _ (h s (by simpa using hd) hs)

theorem spLoop_inv (E : EnvParams) (A1 A2 : AgentParams) (P : SPState → Prop)
    (h : ∀ s, s.done = false → P s → P (spIter E A1 A2 s)) :
    ∀ (fuel : ℕ) (s : SPState), P s → P (spLoop E A1 A2 fuel s) := by
  intro fuel
  induction fuel with
  | zero => intro s hs; exact hs
  | succ k ih =>
      intro s hs
      rw [spLoop_succ]
      split
      · exact hs
      · next hd => exact ih _ (h s (by simpa using hd) hs)

theorem rbLoop_targetSyncCount (E : EnvParams) (A : AgentParams) :
    ∀ (fuel : ℕ) (s : RBState),
      (rbLoop E A fuel s).agent1.targetSyncCount = s.agent1.targetSyncCount := by
  intro fuel
  induction fuel with
  | zero => intro s; rfl
  | succ k ih =>
      intro s
      rw [rbLoop_succ]
      split
      · rfl
      · rw [ih, rbIter_targetSyncCount]

theorem spLoop_targetSyncCount1 (E : EnvParams) (A1 A2 : AgentParams) :
    ∀ (fuel : ℕ) (s : SPState),
      (spLoop E A1 A2 fuel s).agent1.targetSyncCount = s.agent1.targetSyncCount := by
  intro fuel
  induction fuel with
  | zero => intro s; rfl
  | succ k ih =>
      intro s
      rw [spLoop_succ]
      split
      · rfl
      · rw [ih, spIter_targetSyncCount1]

theorem spLoop_targetSyncCount2 (E : EnvParams) (A1 A2 : AgentParams) :
    ∀ (fuel : ℕ) (s : SPState),
      (spLoop E A1 A2 fuel s).agent2.targetSyncCount = s.agent2.targetSyncCount := by
  intro fuel
  induction fuel with
  | zero => intro s; rfl
  | succ k ih =>
      intro s
      rw [spLoop_succ]
      split
      · rfl
      · rw [ih, spIter_targetSyncCount2]

theorem foldl_inv {α β : Type} (P : β → Prop) (f : β → α → β)
    (h : ∀ t e, P t → P (f t e)) :
    ∀ (es : List α) (t : β), P t → P (es.foldl f t) := by
  intro es
  induction es with
  | nil => intro t ht; exact ht
  | cons e es ih => intro t ht; exact ih _ (h t e ht)

theorem foldl_filterTrace {β : Type} (g : β → List ℕ) (f : β → ℕ → β) (p : ℕ → Bool)
    (h : ∀ t e, g (f t e) = g t ++ (if p e then [e] else [])) :
    ∀ (es : List ℕ) (t : β), g (es.foldl f t) = g t ++ es.filter p := by
  intro es
  induction es with
  | nil => intro t; simp
  | cons e es ih =>
      intro t
      rw [List.foldl_cons, ih, h]
      by_cases hp : p e <;> simp [List.filter_cons, hp]

theorem foldl_filterCount {β : Type} (g : β → ℕ) (f : β → ℕ → β) (p : ℕ → Bool)
    (h : ∀ t e, g (f t e) = g t + (if p e then 1 else 0)) :
    ∀ (es : List ℕ) (t : β), g (es.foldl f t) = g t + (es.filter p).length := by
  intro es
  induction es with
  | nil => intro t; simp
  | cons e es ih =>
      intro t
      rw [List.foldl_cons, ih, h]
      by_cases hp : p e <;> simp [List.filter_cons, hp]
      omega

/-! ## Helper lemmas: one episode of each training script -/

theorem rbEpisode_gTargetUpdates1 (E : EnvParams) (A : AgentParams) (fuel e : ℕ)
    (t : RBTrainState) :
    (rbEpisode E A fuel e t).gTargetUpdates1 =
      t.gTargetUpdates1 ++ (if e % A.updateTargetEvery == 0 then [e] else []) := by
  simp only [rbEpisode]
  split <;> simp

theorem rbEpisode_targetSyncCount (E : EnvParams) (A : AgentParams) (fuel e : ℕ)
    (t : RBTrainState) :
    (rbEpisode E A fuel e t).agent1.targetSyncCount =
      t.agent1.targetSyncCount + (if e % A.updateTargetEvery == 0 then 1 else 0) := by
  simp only [rbEpisode]
  split
  · rw [updateTargetNetwork_targetSyncCount, rbLoop_targetSyncCount]
    rfl
  · rw [rbLoop_targetSyncCount]
    simp [rbEpisodeInit]

theorem rbEpisode_lossTrace (E : EnvParams) (A : AgentParams) (fuel e : ℕ)
    (t : RBTrainState) (h : t.agent1Losses = t.gUpdateResults1.filterMap id) :
    (rbEpisode E A fuel e t).agent1Losses =
      ((rbEpisode E A fuel e t).gUpdateResults1).filterMap id := by
  simp only [rbEpisode]
  exact rbLoop_inv E A (fun s => s.agent1Losses = s.gUpdateResults1.filterMap id)
    (fun s _ hs => rbIter_lossTrace E A s hs) fuel _ h

theorem rbEpisode_rewardRecord (E : EnvParams) (A : AgentParams) (fuel e : ℕ)
    (t : RBTrainState) :
    (rbEpisode E A fuel e t).agent1RewardsList =
      t.agent1RewardsList ++
        [pyRound1 (((rbLoop E A fuel (rbEpisodeInit E t)).gAgentRewards).sum -
          (if (rbLoop E A fuel (rbEpisodeInit E t)).gPenalty = true then 1 else 0))] := by
  have hinv := rbLoop_inv E A
    (fun s => (s.agent1Reward = s.gAgentRewards.sum -
        (if s.gPenalty = true then 1 else 0)) ∧ (s.gPenalty = true → s.done = true))
    (fun s hd hs => rbIter_rewardTrace E A s hd hs.1 hs.2) fuel (rbEpisodeInit E t)
    (by simp [rbEpisodeInit])
  simp only [rbEpisode]
  rw [hinv.1]

theorem rbEpisode_winRatesForm (E : EnvParams) (A : AgentParams) (fuel e : ℕ)
    (t : RBTrainState) :
    (rbEpisode E A fuel e t).winRates =
      t.winRates ++ [winRatePair (rbLoop E A fuel (rbEpisodeInit E t)).agent1Wins
        (rbLoop E A fuel (rbEpisodeInit E t)).ruleBasedWins
        (rbLoop E A fuel (rbEpisodeInit E t)).draws] := by
  simp only [rbEpisode]

theorem spEpisode_gTargetUpdates1 (E : EnvParams) (A1 A2 : AgentParams) (fuel e : ℕ)
    (t : SPTrainState) :
    (spEpisode E A1 A2 fuel e t).gTargetUpdates1 =
      t.gTargetUpdates1 ++ (if e % A1.updateTargetEvery == 0 then [e] else []) := by
  simp only [spEpisode]
  split <;> simp

theorem spEpisode_gTargetUpdates2 (E : EnvParams) (A1 A2 : AgentParams) (fuel e : ℕ)
    (t : SPTrainState) :
    (spEpisode E A1 A2 fuel e t).gTargetUpdates2 =
      t.gTargetUpdates2 ++ (if e % A1.updateTargetEvery == 0 then [e] else []) := by
  simp only [spEpisode]
  split <;> simp

theorem spEpisode_targetSyncCount1 (E : EnvParams) (A1 A2 : AgentParams) (fuel e : ℕ)
    (t : SPTrainState) :
    (spEpisode E A1 A2 fuel e t).agent1.targetSyncCount =
      t.agent1.targetSyncCount + (if e % A1.updateTargetEvery == 0 then 1 else 0) := by
  simp only [spEpisode]
  split
  · rw [updateTargetNetwork_targetSyncCount, spLoop_targetSyncCount1]
    rfl
  · rw [spLoop_targetSyncCount1]
    simp [spEpisodeInit]

theorem spEpisode_targetSyncCount2 (E : EnvParams) (A1 A2 : AgentParams) (fuel e : ℕ)
    (t : SPTrainState) :
    (spEpisode E A1 A2 fuel e t).agent2.targetSyncCount =
      t.agent2.targetSyncCount + (if e % A1.updateTargetEvery == 0 then 1 else 0) := by
  simp only [spEpisode]
  split
  · rw [updateTargetNetwork_targetSyncCount, spLoop_targetSyncCount2]
    rfl
  · rw [spLoop_targetSyncCount2]
    simp [spEpisodeInit]

theorem spEpisode_lossTrace1 (E : EnvParams) (A1 A2 : AgentParams) (fuel e : ℕ)
    (t : SPTrainState) (h : t.agent1Losses = t.gUpdateResults1.filterMap id) :
    (spEpisode E A1 A2 fuel e t).agent1Losses =
      ((spEpisode E A1 A2 fuel e t).gUpdateResults1).filterMap id := by
  simp only [spEpisode]
  exact spLoop_inv E A1 A2 (fun s => s.agent1Losses = s.gUpdateResults1.filterMap id)
    (fun s _ hs => spIter_lossTrace1 E A1 A2 s hs) fuel _ h

theorem spEpisode_lossTrace2 (E : EnvParams) (A1 A2 : AgentParams) (fuel e : ℕ)
    (t : SPTrainState) (h : t.agent2Losses = t.gUpdateResults2.filterMap id) :
    (spEpisode E A1 A2 fuel e t).agent2Losses =
      ((spEpisode E A1 A2 fuel e t).gUpdateResults2).filterMap id := by
  simp only [spEpisode]
  exact spLoop_inv E A1 A2 (fun s => s.agent2Losses = s.gUpdateResults2.filterMap id)
    (fun s _ hs => spIter_lossTrace2 E A1 A2 s hs) fuel _ h

theorem spEpisode_selTrace (E : EnvParams) (A1 A2 : AgentParams) (fuel e : ℕ)
    (t : SPTrainState) (h : t.gSelects.all (fun p => p.1 == p.2) = true) :
    ((spEpisode E A1 A2 fuel e t).gSelects).all (fun p => p.1 == p.2) = true := by
  simp only [spEpisode]
  have hinv := spLoop_inv E A1 A2
    (fun s => s.state = s.es ∧ s.gSelects.all (fun p => p.1 == p.2) = true)
    (fun s _ hs => spIter_stateTrace E A1 A2 s hs.1 hs.2) fuel (spEpisodeInit E t)
    ⟨rfl, h⟩
  exact hinv.2

theorem spEpisode_rewardRecord1 (E : EnvParams) (A1 A2 : AgentParams) (fuel e : ℕ)
    (t : SPTrainState) :
    (spEpisode E A1 A2 fuel e t).agent1RewardsList =
      t.agent1RewardsList ++
        [((spLoop E A1 A2 fuel (spEpisodeInit E t)).gAgentRewards1).sum -
          (if (spLoop E A1 A2 fuel (spEpisodeInit E t)).gPenalty1 = true then 1 else 0)] := by
  have hinv := spLoop_inv E A1 A2
    (fun s => (s.agent1Reward = s.gAgentRewards1.sum -
        (if s.gPenalty1 = true then 1 else 0)) ∧ (s.gPenalty1 = true → s.done = true))
    (fun s hd hs => spIter_rewardTrace1 E A1 A2 s hd hs.1 hs.2) fuel (spEpisodeInit E t)
    (by simp [spEpisodeInit])
  simp only [spEpisode]
  rw [hinv.1]

theorem spEpisode_rewardRecord2 (E : EnvParams) (A1 A2 : AgentParams) (fuel e : ℕ)
    (t : SPTrainState) :
    (spEpisode E A1 A2 fuel e t).agent2RewardsList =
      t.agent2RewardsList ++
        [((spLoop E A1 A2 fuel (spEpisodeInit E t)).gAgentRewards2).sum -
          (if (spLoop E A1 A2 fuel (spEpisodeInit E t)).gPenalty2 = true then 1 else 0)] := by
  have hinv := spLoop_inv E A1 A2
    (fun s => (s.agent2Reward = s.gAgentRewards2.sum -
        (if s.gPenalty2 = true then 1 else 0)) ∧ (s.gPenalty2 = true → s.done = true))
    (fun s hd hs => spIter_rewardTrace2 E A1 A2 s hd hs.1 hs.2) fuel (spEpisodeInit E t)
    (by simp [spEpisodeInit])
  simp only [spEpisode]
  rw [hinv.1]

theorem spEpisode_winRatesForm (E : EnvParams) (A1 A2 : AgentParams) (fuel e : ℕ)
    (t : SPTrainState) :
    (spEpisode E A1 A2 fuel e t).winRates =
      t.winRates ++ [winRatePair (spLoop E A1 A2 fuel (spEpisodeInit E t)).agent1Wins
        (spLoop E A1 A2 fuel (spEpisodeInit E t)).agent2Wins
        (spLoop E A1 A2 fuel (spEpisodeInit E t)).draws] := by
  simp only [spEpisode]

/-! ## Helper lemmas: win-rate pairs -/

theorem winRatePair_ok (w1 w2 d : ℕ) : winPairOK (winRatePair w1 w2 d) = true := by
  unfold winRatePair winPairOK
  dsimp only
  split_ifs with ht
  · simp only [Bool.and_eq_true, decide_eq_true_eq]
    have htq : (0 : ℚ) < ((w1 + w2 + d : ℕ) : ℚ) := by exact_mod_cast ht
    refine ⟨⟨div_nonneg (by positivity) htq.le, div_nonneg (by positivity) htq.le⟩, ?_⟩
    rw [div_add_div_same, div_le_one htq]
    have hd : (0 : ℚ) ≤ (d : ℚ) := Nat.cast_nonneg d
    push_cast
    linarith
  · norm_num

theorem winRatePair_zeroGames (w1 w2 d : ℕ) (h : w1 + w2 + d = 0) :
    winRatePair w1 w2 d = (0, 0) := by
  unfold winRatePair
  rw [if_neg (by omega)]

theorem rbEpisode_winRatesOK (E : EnvParams) (A : AgentParams) (fuel e : ℕ)
    (t : RBTrainState) (h : t.winRates.all winPairOK = true) :
    ((rbEpisode E A fuel e t).winRates).all winPairOK = true := by
  rw [rbEpisode_winRatesForm, List.all_append]
  simp [h, winRatePair_ok]

theorem spEpisode_winRatesOK (E : EnvParams) (A1 A2 : AgentParams) (fuel e : ℕ)
    (t : SPTrainState) (h : t.winRates.all winPairOK = true) :
    ((spEpisode E A1 A2 fuel e t).winRates).all winPairOK = true := by
  rw [spEpisode_winRatesForm, List.all_append]
  simp [h, winRatePair_ok]

/-! ## Helper lemmas: substring facts about the artifact paths -/

theorem listStarts_append (n b : List Char) : listStarts n (n ++ b) = true := by
  induction n with
  | nil => rfl
  | cons a as ih => simp [listStarts, ih]

theorem listHasSub_of_starts (n l : List Char) (h : listStarts n l = true) :
    listHasSub n l = true := by
  cases l with
  | nil => exact h
  | cons b bs => simp [listHasSub, h]

theorem listHasSub_cons (n l : List Char) (c : Char) (h : listHasSub n l = true) :
    listHasSub n (c :: l) = true := by
  simp [listHasSub, h]

theorem listHasSub_append_left (n : List Char) :
    ∀ (a l : List Char), listHasSub n l = true → listHasSub n (a ++ l) = true := by
  intro a
  induction a with
  | nil => intro l h; exact h
  | cons c cs ih => intro l h; exact listHasSub_cons n (cs ++ l) c (ih l h)

theorem strIn_folder (rt sfx : String) :
    strIn "rule_based_dqn/" (rbRunFolder rt ++ sfx) = true := by
  unfold strIn rbRunFolder
  show listHasSub ("rule_based_dqn/").data
    ((("rule_based_dqn/").data ++ (rt.data ++ ("/").data)) ++ sfx.data) = true
  rw [List.append_assoc]
  exact listHasSub_of_starts _ _ (listStarts_append _ _)

theorem strIn_rewardType (rt sfx : String) :
    strIn rt (rbRunFolder rt ++ sfx) = true := by
  unfold strIn rbRunFolder
  show listHasSub rt.data
    ((("rule_based_dqn/").data ++ (rt.data ++ ("/").data)) ++ sfx.data) = true
  rw [List.append_assoc]
  apply listHasSub_append_left
  rw [List.append_assoc]
  exact listHasSub_of_starts _ _ (listStarts_append _ _)

/-! ## Helper lemmas: whole training runs -/

theorem rbTrain_gTargetUpdates (E : EnvParams) (A : AgentParams) (fuel n : ℕ) :
    (rbTrain E A fuel n).gTargetUpdates1 =
      (List.range' 1 n).filter (fun e => e % A.updateTargetEvery == 0) := by
  unfold rbTrain
  have h := foldl_filterTrace (fun t : RBTrainState => t.gTargetUpdates1)
    (fun t e => rbEpisode E A fuel e t) (fun e => e % A.updateTargetEvery == 0)
    (fun t e => rbEpisode_gTargetUpdates1 E A fuel e t) (List.range' 1 n) (rbTrainInit A)
  simpa [rbTrainInit] using h

theorem rbTrain_targetSyncCount (E : EnvParams) (A : AgentParams) (fuel n : ℕ) :
    (rbTrain E A fuel n).agent1.targetSyncCount =
      ((List.range' 1 n).filter (fun e => e % A.updateTargetEvery == 0)).length := by
  unfold rbTrain
  have h := foldl_filterCount (fun t : RBTrainState => t.agent1.targetSyncCount)
    (fun t e => rbEpisode E A fuel e t) (fun e => e % A.updateTargetEvery == 0)
    (fun t e => rbEpisode_targetSyncCount E A fuel e t) (List.range' 1 n) (rbTrainInit A)
  simpa [rbTrainInit, agentInit] using h

theorem spTrain_gTargetUpdates1 (E : EnvParams) (A1 A2 : AgentParams) (fuel n : ℕ) :
    (spTrain E A1 A2 fuel n).gTargetUpdates1 =
      (List.range' 1 n).filter (fun e => e % A1.updateTargetEvery == 0) := by
  unfold spTrain
  have h := foldl_filterTrace (fun t : SPTrainState => t.gTargetUpdates1)
    (fun t e => spEpisode E A1 A2 fuel e t) (fun e => e % A1.updateTargetEvery == 0)
    (fun t e => spEpisode_gTargetUpdates1 E A1 A2 fuel e t) (List.range' 1 n)
    (spTrainInit A1 A2)
  simpa [spTrainInit] using h

theorem spTrain_gTargetUpdates2 (E : EnvParams) (A1 A2 : AgentParams) (fuel n : ℕ) :
    (spTrain E A1 A2 fuel n).gTargetUpdates2 =
      (List.range' 1 n).filter (fun e => e % A1.updateTargetEvery == 0) := by
  unfold spTrain
  have h := foldl_filterTrace (fun t : SPTrainState => t.gTargetUpdates2)
    (fun t e => spEpisode E A1 A2 fuel e t) (fun e => e % A1.updateTargetEvery == 0)
    (fun t e => spEpisode_gTargetUpdates2 E A1 A2 fuel e t) (List.range' 1 n)
    (spTrainInit A1 A2)
  simpa [spTrainInit] using h

theorem spTrain_targetSyncCount1 (E : EnvParams) (A1 A2 : AgentParams) (fuel n : ℕ) :
    (spTrain E A1 A2 fuel n).agent1.targetSyncCount =
      ((List.range' 1 n).filter (fun e => e % A1.updateTargetEvery == 0)).length := by
  unfold spTrain
  have h := foldl_filterCount (fun t : SPTrainState => t.agent1.targetSyncCount)
    (fun t e => spEpisode E A1 A2 fuel e t) (fun e => e % A1.updateTargetEvery == 0)
    (fun t e => spEpisode_targetSyncCount1 E A1 A2 fuel e t) (List.range' 1 n)
    (spTrainInit A1 A2)
  simpa [spTrainInit, agentInit] using h

theorem spTrain_targetSyncCount2 (E : EnvParams) (A1 A2 : AgentParams) (fuel n : ℕ) :
    (spTrain E A1 A2 fuel n).agent2.targetSyncCount =
      ((List.range' 1 n).filter (fun e => e % A1.updateTargetEvery == 0)).length := by
  unfold spTrain
  have h := foldl_filterCount (fun t : SPTrainState => t.agent2.targetSyncCount)
    (fun t e => spEpisode E A1 A2 fuel e t) (fun e => e % A1.updateTargetEvery == 0)
    (fun t e => spEpisode_targetSyncCount2 E A1 A2 fuel e t) (List.range' 1 n)
    (spTrainInit A1 A2)
  simpa [spTrainInit, agentInit] using h

theorem rbTrain_lossTrace (E : EnvParams) (A : AgentParams) (fuel n : ℕ) :
    (rbTrain E A fuel n).agent1Losses =
      ((rbTrain E A fuel n).gUpdateResults1).filterMap id := by
  unfold rbTrain
  exact foldl_inv (fun t : RBTrainState => t.agent1Losses = t.gUpdateResults1.filterMap id)
    (fun t e => rbEpisode E A fuel e t)
    (fun t e ht => rbEpisode_lossTrace E A fuel e t ht) (List.range' 1 n)
    (rbTrainInit A) rfl

theorem spTrain_lossTrace1 (E : EnvParams) (A1 A2 : AgentParams) (fuel n : ℕ) :
    (spTrain E A1 A2 fuel n).agent1Losses =
      ((spTrain E A1 A2 fuel n).gUpdateResults1).filterMap id := by
  unfold spTrain
  exact foldl_inv (fun t : SPTrainState => t.agent1Losses = t.gUpdateResults1.filterMap id)
    (fun t e => spEpisode E A1 A2 fuel e t)
    (fun t e ht => spEpisode_lossTrace1 E A1 A2 fuel e t ht) (List.range' 1 n)
    (spTrainInit A1 A2) rfl

theorem spTrain_lossTrace2 (E : EnvParams) (A1 A2 : AgentParams) (fuel n : ℕ) :
    (spTrain E A1 A2 fuel n).agent2Losses =
      ((spTrain E A1 A2 fuel n).gUpdateResults2).filterMap id := by
  unfold spTrain
  exact foldl_inv (fun t : SPTrainState => t.agent2Losses = t.gUpdateResults2.filterMap id)
    (fun t e => spEpisode E A1 A2 fuel e t)
    (fun t e ht => spEpisode_lossTrace2 E A1 A2 fuel e t ht) (List.range' 1 n)
    (spTrainInit A1 A2) rfl

theorem spTrain_selTrace (E : EnvParams) (A1 A2 : AgentParams) (fuel n : ℕ) :
    ((spTrain E A1 A2 fuel n).gSelects).all (fun p => p.1 == p.2) = true := by
  unfold spTrain
  exact foldl_inv (fun t : SPTrainState => t.gSelects.all (fun p => p.1 == p.2) = true)
    (fun t e => spEpisode E A1 A2 fuel e t)
    (fun t e ht => spEpisode_selTrace E A1 A2 fuel e t ht) (List.range' 1 n)
    (spTrainInit A1 A2) rfl

theorem rbTrain_winRatesOK (E : EnvParams) (A : AgentParams) (fuel n : ℕ) :
    ((rbTrain E A fuel n).winRates).all winPairOK = true := by
  unfold rbTrain
  exact foldl_inv (fun t : RBTrainState => t.winRates.all winPairOK = true)
    (fun t e => rbEpisode E A fuel e t)
    (fun t e ht => rbEpisode_winRatesOK E A fuel e t ht) (List.range' 1 n)
    (rbTrainInit A) rfl

theorem spTrain_winRatesOK (E : EnvParams) (A1 A2 : AgentParams) (fuel n : ℕ) :
    ((spTrain E A1 A2 fuel n).winRates).all winPairOK = true := by
  unfold spTrain
  exact foldl_inv (fun t : SPTrainState => t.winRates.all winPairOK = true)
    (fun t e => spEpisode E A1 A2 fuel e t)
    (fun t e ht => spEpisode_winRatesOK E A1 A2 fuel e t ht) (List.range' 1 n)
    (spTrainInit A1 A2) rfl

/-! ## Probe states for witnesses -/

/-- The rule-based loop state reached after player 1's first move in the
`envOppWins` trace: it is now the rule-based player's turn. -/
def rbProbeOpp : RBState :=
  rbIter envOppWins stubAgent (rbEpisodeInit envOppWins (rbTrainInit stubAgent))

/-- The self-play loop state at the start of an `envInvalidSP` episode:
player 1's turn. -/
def spProbeP1 : SPState := spEpisodeInit envInvalidSP (spTrainInit stubAgent stubAgent)

/-- The self-play loop state after one iteration of the `envInvalidSP`
episode: player 2's turn. -/
def spProbeP2 : SPState := spIter envInvalidSP stubAgent stubAgent spProbeP1

/-! ## The claims -/

/-- C1: the claim says every `select_action` call receives the
environment's current state encoding (the value returned by the most
recent `reset` or `step`) in both training loops.  This fails in the
rule-based loop: its `state` variable is never reassigned after
`env.reset()`, so on the agent's second turn of the `envStale` episode
`select_action` receives encoding 0 while the environment is in state 2
(the ghost trace records the pair (passed encoding, current environment
state) for every call, and the second recorded pair is mismatched).  In
the self-play loop, which does execute `state = next_state`, every
recorded pair matches, for every environment and every oracle. -/
theorem claim_C1_select_state_freshness :
    ((rbTrain envStale stubAgent 3 1).gSelects = [(0, 0), (0, 2)] ∧
      ((rbTrain envStale stubAgent 3 1).gSelects).all (fun p => p.1 == p.2) = false) ∧
    (∀ (E : EnvParams) (A1 A2 : AgentParams) (fuel n : ℕ),
      ((spTrain E A1 A2 fuel n).gSelects).all (fun p => p.1 == p.2) = true) := by
  constructor
  · have h1 : (rbTrain envStale stubAgent 3 1).gSelects = [(0, 0), (0, 2)] := by
      norm_num +decide [rbTrain, List.range', rbEpisode, rbLoop_succ, rbLoop_zero, rbIter,
        rbTally, tallyKind_p1win, tallyKind_noInfo, rbEpisodeInit, rbTrainInit,
        selectAction, storeTransition, updateModel, actionToCoord, agentInit,
        envStale, stubAgent]
    exact ⟨h1, by rw [h1]; decide⟩
  · exact fun E A1 A2 fuel n => spTrain_selTrace E A1 A2 fuel n

/-- C2: in both training loops, `update_target_network` is called on each
trained agent after episode `e` exactly when `e` is a multiple of that
agent's `update_target_every` (the ghost list of episodes at which the
sync was triggered equals the filtered episode range), and at no other
point (the agent's own count of target-sync calls equals the length of
that list, so no unrecorded sync ever happens).  For the self-play loop
the script tests `episode % agent1.update_target_every` for both agents,
which matches each agent's own period because both agents are constructed
with the same `update_target_every` argument. -/
theorem claim_C2_target_sync_cadence :
    (∀ (E : EnvParams) (A : AgentParams) (fuel n : ℕ),
      (rbTrain E A fuel n).gTargetUpdates1 =
        (List.range' 1 n).filter (fun e => e % A.updateTargetEvery == 0) ∧
      (rbTrain E A fuel n).agent1.targetSyncCount =
        ((List.range' 1 n).filter (fun e => e % A.updateTargetEvery == 0)).length) ∧
    (∀ (E : EnvParams) (A1 A2 : AgentParams) (fuel n : ℕ),
      A1.updateTargetEvery = A2.updateTargetEvery →
      (spTrain E A1 A2 fuel n).gTargetUpdates1 =
        (List.range' 1 n).filter (fun e => e % A1.updateTargetEvery == 0) ∧
      (spTrain E A1 A2 fuel n).gTargetUpdates2 =
        (List.range' 1 n).filter (fun e => e % A2.updateTargetEvery == 0) ∧
      (spTrain E A1 A2 fuel n).agent1.targetSyncCount =
        ((List.range' 1 n).filter (fun e => e % A1.updateTargetEvery == 0)).length ∧
      (spTrain E A1 A2 fuel n).agent2.targetSyncCount =
        ((List.range' 1 n).filter (fun e => e % A2.updateTargetEvery == 0)).length) := by
  refine ⟨fun E A fuel n => ⟨rbTrain_gTargetUpdates E A fuel n,
    rbTrain_targetSyncCount E A fuel n⟩, fun E A1 A2 fuel n h => ?_⟩
  refine ⟨spTrain_gTargetUpdates1 E A1 A2 fuel n, ?_,
    spTrain_targetSyncCount1 E A1 A2 fuel n, ?_⟩
  · rw [← h]
    exact spTrain_gTargetUpdates2 E A1 A2 fuel n
  · rw [← h]
    exact spTrain_targetSyncCount2 E A1 A2 fuel n

/-- Witness for C2: a concrete self-play run with equal periods. -/
theorem claim_C2_witness :
    (spTrain envOneMove stubAgent stubAgent 2 3).gTargetUpdates1 =
      (List.range' 1 3).filter (fun e => e % stubAgent.updateTargetEvery == 0) :=
  (claim_C2_target_sync_cadence.2 envOneMove stubAgent stubAgent 2 3 rfl).1

/-- C3: the claim says the average-loss entry appended after each episode
is the mean of exactly the losses `update_model` returned during that
episode.  In the rule-based script `step_count` is initialized to 0 and
never incremented, so `np.mean(agent1_losses[-step_count:])` averages the
whole loss history.  Concretely (`envOneMove`, batch size 1, losses 0
then 2): episode 2's only update returned loss 2 (the ghost trace grows
from `[some 0]` to `[some 0, some 2]`), the mean of episode 2's losses is
`qmean [2] = 2`, yet the entry appended after episode 2 is 1 — the
running mean of all losses — and 1 is not 2. -/
theorem claim_C3_avg_loss_is_running_mean :
    (rbTrain envOneMove lossAgent 2 1).gUpdateResults1 = [some 0] ∧
    (rbTrain envOneMove lossAgent 2 2).gUpdateResults1 = [some 0, some 2] ∧
    (rbTrain envOneMove lossAgent 2 2).agent1AvgLosses = [0, 1] ∧
    qmean [2] = 2 ∧ (1 : ℚ) ≠ 2 := by
  refine ⟨?_, ?_, ?_, by norm_num [qmean], by norm_num⟩ <;>
    norm_num +decide [rbTrain, List.range', rbEpisode, rbLoop_succ, rbLoop_zero, rbIter,
      rbTally, tallyKind_p1win, rbEpisodeInit, rbTrainInit, selectAction, storeTransition,
      updateModel, actionToCoord, agentInit, envOneMove, lossAgent, stubAgent, qmean,
      sliceLastPy, pyRound1, winRatePair]

/-- Counterexample for C4: in the `envOppWins` run the agent's single
move returned step reward 5 (the ghost trace of rewards the environment
returned for the agent's moves is `[5]`), but the value recorded in the
per-episode reward metrics array is 4 — the loop applied the hardcoded
`agent1_reward -= 1` when the rule-based player won, so the recorded
value is not the sum of the environment's step rewards. -/
theorem claim_C4_counterexample :
    (rbTrain envOppWins stubAgent 2 1).agent1RewardsList = [4] ∧
    (rbLoop envOppWins stubAgent 2
      (rbEpisodeInit envOppWins (rbTrainInit stubAgent))).gAgentRewards = [5] ∧
    List.sum [(5 : ℚ)] = 5 ∧ (4 : ℚ) ≠ 5 := by
  refine ⟨?_, ?_, by norm_num, by norm_num⟩ <;>
    norm_num +decide [rbTrain, List.range', rbEpisode, rbLoop_succ, rbLoop_zero, rbIter,
      rbTally, tallyKind_p2win, tallyKind_noInfo, rbEpisodeInit, rbTrainInit,
      selectAction, storeTransition, updateModel, actionToCoord, agentInit, envOppWins,
      stubAgent, pyRound1, qmean, sliceLastPy, winRatePair]

/-- C4 as amended: the per-episode reward value recorded for an agent
equals the sum of the step rewards the environment returned for that
agent's moves, minus a hardcoded 1 when the episode ended with the
opposing player's win (and, in the rule-based script only, rounded with
`round(x, 1)`); the self-play script records the raw value with the same
penalty convention for each agent. -/
theorem claim_C4_amended :
    (∀ (E : EnvParams) (A : AgentParams) (fuel e : ℕ) (t : RBTrainState),
      (rbEpisode E A fuel e t).agent1RewardsList =
        t.agent1RewardsList ++
          [pyRound1 (((rbLoop E A fuel (rbEpisodeInit E t)).gAgentRewards).sum -
            (if (rbLoop E A fuel (rbEpisodeInit E t)).gPenalty = true then 1 else 0))]) ∧
    (∀ (E : EnvParams) (A1 A2 : AgentParams) (fuel e : ℕ) (t : SPTrainState),
      (spEpisode E A1 A2 fuel e t).agent1RewardsList =
        t.agent1RewardsList ++
          [((spLoop E A1 A2 fuel (spEpisodeInit E t)).gAgentRewards1).sum -
            (if (spLoop E A1 A2 fuel (spEpisodeInit E t)).gPenalty1 = true then 1 else 0)] ∧
      (spEpisode E A1 A2 fuel e t).agent2RewardsList =
        t.agent2RewardsList ++
          [((spLoop E A1 A2 fuel (spEpisodeInit E t)).gAgentRewards2).sum -
            (if (spLoop E A1 A2 fuel (spEpisodeInit E t)).gPenalty2 = true then 1 else 0)]) :=
  ⟨fun E A fuel e t => rbEpisode_rewardRecord E A fuel e t,
   fun E A1 A2 fuel e t => ⟨spEpisode_rewardRecord1 E A1 A2 fuel e t,
     spEpisode_rewardRecord2 E A1 A2 fuel e t⟩⟩

/-- Counterexample for C5: the self-play script does not persist its
metrics to a run-specific directory keyed by the reward-configuration
name — its save paths are fixed filenames that contain no directory
separator and no configuration name (here checked against the default
configuration name), and they do not depend on the script's
configuration-path argument at all. -/
theorem claim_C5_counterexample :
    spMetricPaths.all (fun p => !strIn "rewards_default" p) = true ∧
    spMetricPaths.all (fun p => !strIn "/" p) = true ∧
    spMetricPaths ≠ [] := by
  refine ⟨by decide, by decide, by decide⟩

/-- C5 as amended: the rule-based script persists its three metric
arrays under `rule_based_dqn/<rewards_type>/` — every path contains the
reward-configuration name and the run folder — while the self-play
script saves its five metric arrays to fixed filenames in the current
working directory, not keyed by the configuration name. -/
theorem claim_C5_amended :
    (∀ rt : String, (rbMetricPaths rt).all
        (fun p => strIn rt p && strIn "rule_based_dqn/" p) = true) ∧
    spMetricPaths.all (fun p => !strIn "/" p) = true ∧
    spMetricPaths.length = 5 := by
  refine ⟨fun rt => ?_, by decide, by decide⟩
  simp [rbMetricPaths, strIn_rewardType, strIn_folder]

/-- Counterexample for C6: neither active training loop retries invalid
moves.  In the `envInvalidSP` self-play run, player 2's only move targets
an occupied cell: the loop stores exactly one transition (with the
invalid-move penalty and `done = true`), player 2's agent made exactly
one `select_action` call, the episode performed exactly two environment
steps and then ended, with fuel to spare — no new action was selected
until a valid move was executed.  The rule-based run `envInvalidRB`
behaves the same way on an invalid move (two selections for two turns,
three steps, episode over).  So it is not the case that one script
retries until valid while the other terminates: both simply terminate
with the environment's reference invalid-move behaviour. -/
theorem claim_C6_counterexample :
    (spTrain envInvalidSP stubAgent stubAgent 5 1).agent2.selectCalls = 1 ∧
    (spTrain envInvalidSP stubAgent stubAgent 5 1).agent2.memory =
      [{ state := 1, action := 0, reward := -1, nextState := 1, done := true }] ∧
    (spTrain envInvalidSP stubAgent stubAgent 5 1).gStepCalls = 2 ∧
    (rbTrain envInvalidRB stubAgent 5 1).agent1.selectCalls = 2 ∧
    (rbTrain envInvalidRB stubAgent 5 1).gStepCalls = 3 := by
  refine ⟨?_, ?_, ?_, ?_, ?_⟩
  · norm_num +decide [spTrain, List.range', spEpisode, spLoop_succ, spLoop_zero, spIter,
      spTally, tallyKind_invalid, tallyKind_noInfo, spEpisodeInit, spTrainInit,
      selectAction, storeTransition, updateModel, actionToCoord, agentInit, envInvalidSP,
      stubAgent, updateTargetNetwork]
  · norm_num +decide [spTrain, List.range', spEpisode, spLoop_succ, spLoop_zero, spIter,
      spTally, tallyKind_invalid, tallyKind_noInfo, spEpisodeInit, spTrainInit,
      selectAction, storeTransition, updateModel, actionToCoord, agentInit, envInvalidSP,
      stubAgent, updateTargetNetwork]
  · norm_num +decide [spTrain, List.range', spEpisode, spLoop_succ, spLoop_zero, spIter,
      spTally, tallyKind_invalid, tallyKind_noInfo, spEpisodeInit, spTrainInit,
      selectAction, storeTransition, updateModel, actionToCoord, agentInit, envInvalidSP,
      stubAgent, updateTargetNetwork]
  · norm_num +decide [rbTrain, List.range', rbEpisode, rbLoop_succ, rbLoop_zero, rbIter,
      rbTally, tallyKind_invalid, tallyKind_noInfo, rbEpisodeInit, rbTrainInit,
      selectAction, storeTransition, updateModel, actionToCoord, agentInit, envInvalidRB,
      stubAgent, updateTargetNetwork]
  · norm_num +decide [rbTrain, List.range', rbEpisode, rbLoop_succ, rbLoop_zero, rbIter,
      rbTally, tallyKind_invalid, tallyKind_noInfo, rbEpisodeInit, rbTrainInit,
      selectAction, storeTransition, updateModel, actionToCoord, agentInit, envInvalidRB,
      stubAgent, updateTargetNetwork]

/-- C6 as amended: the two active training loops handle invalid moves
identically — each `while` iteration performs exactly one environment
step, and exactly one `select_action` call by the acting agent (in the
rule-based loop, only when it is the agent's turn), for every
environment behaviour including invalid moves; whether an invalid move
ends the episode is decided solely by the environment's returned `done`
flag (the spec's reference behaviour terminates).  The retry-until-valid
variant exists only in a commented-out block of the self-play script. -/
theorem claim_C6_amended :
    (∀ (E : EnvParams) (A1 A2 : AgentParams) (s : SPState),
      (spIter E A1 A2 s).gStepCalls = s.gStepCalls + 1 ∧
      (spIter E A1 A2 s).agent1.selectCalls + (spIter E A1 A2 s).agent2.selectCalls =
        s.agent1.selectCalls + s.agent2.selectCalls + 1) ∧
    (∀ (E : EnvParams) (A : AgentParams) (s : RBState),
      (rbIter E A s).gStepCalls = s.gStepCalls + 1 ∧
      (rbIter E A s).agent1.selectCalls =
        s.agent1.selectCalls + (if E.curPlayer s.es = 1 then 1 else 0)) :=
  ⟨fun E A1 A2 s => ⟨spIter_gStepCalls E A1 A2 s, spIter_selectCalls E A1 A2 s⟩,
   fun E A s => ⟨rbIter_gStepCalls E A s, rbIter_selectCalls E A s⟩⟩

/-- C7: in both loops, across every run, an agent's loss list is exactly
the sequence of non-`none` values among everything its `update_model`
calls returned (the ghost trace records every returned `Option`, and the
loss list equals its `filterMap id`): a returned loss is appended exactly
when it is not `none`, a `none` leaves the lists unchanged, and no
`none` can enter the aggregates. -/
theorem claim_C7_none_losses_excluded :
    (∀ (E : EnvParams) (A : AgentParams) (fuel n : ℕ),
      (rbTrain E A fuel n).agent1Losses =
        ((rbTrain E A fuel n).gUpdateResults1).filterMap id) ∧
    (∀ (E : EnvParams) (A1 A2 : AgentParams) (fuel n : ℕ),
      (spTrain E A1 A2 fuel n).agent1Losses =
        ((spTrain E A1 A2 fuel n).gUpdateResults1).filterMap id ∧
      (spTrain E A1 A2 fuel n).agent2Losses =
        ((spTrain E A1 A2 fuel n).gUpdateResults2).filterMap id) :=
  ⟨fun E A fuel n => rbTrain_lossTrace E A fuel n,
   fun E A1 A2 fuel n => ⟨spTrain_lossTrace1 E A1 A2 fuel n,
     spTrain_lossTrace2 E A1 A2 fuel n⟩⟩

/-- C8: in the self-play loop the two agents' states are fully
independent: a step taken on player 1's turn leaves agent 2's entire
state (replay buffer, epsilon, every counter and network version)
unchanged, and a step taken on player 2's turn leaves agent 1's entire
state unchanged, for every environment and every pair of oracles. -/
theorem claim_C8_agent_independence :
    ∀ (E : EnvParams) (A1 A2 : AgentParams) (s : SPState),
      (E.curPlayer s.es = 1 → (spIter E A1 A2 s).agent2 = s.agent2) ∧
      (¬ E.curPlayer s.es = 1 → (spIter E A1 A2 s).agent1 = s.agent1) :=
  fun E A1 A2 s => ⟨spIter_agent2_frame E A1 A2 s, spIter_agent1_frame E A1 A2 s⟩

/-- Witness for C8: one turn of each player in the `envInvalidSP` run. -/
theorem claim_C8_witness :
    (spIter envInvalidSP stubAgent stubAgent spProbeP1).agent2 = spProbeP1.agent2 ∧
    (spIter envInvalidSP stubAgent stubAgent spProbeP2).agent1 = spProbeP2.agent1 :=
  ⟨(claim_C8_agent_independence envInvalidSP stubAgent stubAgent spProbeP1).1 (by decide),
   (claim_C8_agent_independence envInvalidSP stubAgent stubAgent spProbeP2).2 (by decide)⟩

/-- Counterexample for C9: the claim says every rule-based-opponent move
leaves the agent's accumulated episode reward unchanged.  In the
`envOppWins` trace it is the opponent's turn at `rbProbeOpp` (the
accumulated reward is 5), and the opponent's winning move drops the
accumulated reward to 4: the in-loop tally applies `agent1_reward -= 1`
on the opponent's move when "Player 2 wins". -/
theorem claim_C9_counterexample :
    ¬ envOppWins.curPlayer rbProbeOpp.es = 1 ∧
    rbProbeOpp.agent1Reward = 5 ∧
    (rbIter envOppWins stubAgent rbProbeOpp).agent1Reward = 4 ∧
    (4 : ℚ) ≠ 5 := by
  refine ⟨by decide, ?_, ?_, by norm_num⟩ <;>
    norm_num +decide [rbProbeOpp, rbIter, rbTally, tallyKind_p2win, tallyKind_noInfo,
      rbEpisodeInit, rbTrainInit, selectAction, storeTransition, updateModel,
      actionToCoord, agentInit, envOppWins, stubAgent]

/-- C9 as amended: on every step of the rule-based loop where
`current_player` is not 1, the agent object is untouched (so
`store_transition` and `update_model` are not invoked: the replay buffer,
the epsilon schedule and every counter are unchanged), the loss list and
the ghost trace of update results are unchanged, and the accumulated
episode reward is unchanged except for the hardcoded `-= 1` applied when
the opponent's move ends the episode with a "Player 2 wins" message. -/
theorem claim_C9_amended :
    ∀ (E : EnvParams) (A : AgentParams) (s : RBState), ¬ E.curPlayer s.es = 1 →
      (rbIter E A s).agent1 = s.agent1 ∧
      (rbIter E A s).agent1Losses = s.agent1Losses ∧
      (rbIter E A s).gUpdateResults1 = s.gUpdateResults1 ∧
      (rbIter E A s).agent1Reward = s.agent1Reward -
        (if (E.stepFn s.es (E.ruleMove s.es)).2.2.1 = true ∧
            tallyKind (E.stepFn s.es (E.ruleMove s.es)).2.2.2 = 2 then 1 else 0) :=
  fun E A s h => rbIter_oppTurn E A s h

/-- Witness for C9 (amended): the opponent's turn at `rbProbeOpp`. -/
theorem claim_C9_witness :
    (rbIter envOppWins stubAgent rbProbeOpp).agent1 = rbProbeOpp.agent1 ∧
    (rbIter envOppWins stubAgent rbProbeOpp).agent1Losses = rbProbeOpp.agent1Losses :=
  ⟨(claim_C9_amended envOppWins stubAgent rbProbeOpp (by decide)).1,
   (claim_C9_amended envOppWins stubAgent rbProbeOpp (by decide)).2.1⟩

/-- C10: every win-rate pair appended by either loop is of the form
`winRatePair w1 w2 d` over the current counters (both loops append
exactly one such pair per episode), every such pair has nonnegative
components summing to at most 1, and when no finished game has been
counted the pair is (0, 0) — the computation never divides by zero. -/
theorem claim_C10_win_rate_bounds :
    (∀ w1 w2 d : ℕ, winPairOK (winRatePair w1 w2 d) = true) ∧
    (∀ w1 w2 d : ℕ, w1 + w2 + d = 0 → winRatePair w1 w2 d = (0, 0)) ∧
    (∀ (E : EnvParams) (A : AgentParams) (fuel e : ℕ) (t : RBTrainState),
      (rbEpisode E A fuel e t).winRates =
        t.winRates ++ [winRatePair (rbLoop E A fuel (rbEpisodeInit E t)).agent1Wins
          (rbLoop E A fuel (rbEpisodeInit E t)).ruleBasedWins
          (rbLoop E A fuel (rbEpisodeInit E t)).draws]) ∧
    (∀ (E : EnvParams) (A1 A2 : AgentParams) (fuel e : ℕ) (t : SPTrainState),
      (spEpisode E A1 A2 fuel e t).winRates =
        t.winRates ++ [winRatePair (spLoop E A1 A2 fuel (spEpisodeInit E t)).agent1Wins
          (spLoop E A1 A2 fuel (spEpisodeInit E t)).agent2Wins
          (spLoop E A1 A2 fuel (spEpisodeInit E t)).draws]) ∧
    (∀ (E : EnvParams) (A : AgentParams) (fuel n : ℕ),
      ((rbTrain E A fuel n).winRates).all winPairOK = true) ∧
    (∀ (E : EnvParams) (A1 A2 : AgentParams) (fuel n : ℕ),
      ((spTrain E A1 A2 fuel n).winRates).all winPairOK = true) :=
  ⟨winRatePair_ok, winRatePair_zeroGames, rbEpisode_winRatesForm, spEpisode_winRatesForm,
   rbTrain_winRatesOK, spTrain_winRatesOK⟩

/-- Witness for C10: the zero-games case and a populated case. -/
theorem claim_C10_witness :
    winRatePair 0 0 0 = (0, 0) ∧ winPairOK (winRatePair 2 1 1) = true :=
  ⟨claim_C10_win_rate_bounds.2.1 0 0 0 rfl, claim_C10_win_rate_bounds.1 2 1 1⟩

end GomokuDQN
